import Mathlib

/-!
Verification development for the Vapi-HubSpot webhook bridge.

The repository is a collection of near-duplicate Express servers gluing a
voice-AI calling platform (Vapi) to a CRM (HubSpot).  This file gives a
shallow embedding of the pieces of the code that the specification talks
about: the phone normalizers, the CRM gateway operations (contact upsert,
deal and note creation, note association), the tool-call dispatch loops of
the two webhook variants, the lead-status store, the assistant-override
synthesizer and the top-level request handlers.

External HTTP calls to HubSpot are modelled by explicit state passing over
a small CRM world (`Crm`), with per-endpoint failure-injection flags that
stand for transport or API errors; a throwing axios/SDK call becomes a
computation in the monad `M` that can return `Except.error`.  JavaScript
truthiness on optional string fields is modelled by `truthy`.
-/

deriving instance DecidableEq for Except

namespace VH

/-- JavaScript truthiness of an optional string: `undefined`/`null` and the
empty string are falsy, everything else is truthy. -/
def truthy : Option String → Bool
  | none => false
  | some s => !(s == "")

/-- JavaScript `a || b` for strings: the left operand wins when non-empty. -/
def jsS (a b : String) : String :=
  if a == "" then b else a

/-- JavaScript `a || b` where `a` is an optional string and `b` a string. -/
def jsOrS (a : Option String) (b : String) : String :=
  if truthy a then a.getD "" else b

/-- JavaScript `a || b` on two optional strings. -/
def jsOrOpt (a b : Option String) : Option String :=
  if truthy a then a else b

/-- Keep an optional string only when truthy; models building a `properties`
object that includes a field only when its value is truthy. -/
def oTruthy (a : Option String) : Option String :=
  if truthy a then a else none

/-- Separator-joining of a list of strings, as JavaScript `Array.join`. -/
def joinSep (sep : String) : List String → String
  | [] => ""
  | [x] => x
  | x :: xs => x ++ sep ++ joinSep sep xs

/-- The digit characters of a string, in order (`p.replace(/[^\d]/g, "")`
from `index.js`). -/
def digitsOf (p : String) : List Char :=
  p.toList.filter Char.isDigit

/-- The `normalize` from `src/index.js`:
strip every non-digit; if nothing remains return the input unchanged;
ten digits get a `+1` prefix; eleven digits starting with `1` get `+`;
any other digit string also gets `+`. -/
def normalize (p : String) : String :=
  let d := digitsOf p
  if d.isEmpty then p
  else if d.length == 10 then List.asString ('+' :: '1' :: d)
  else if d.length == 11 && d.headD ' ' == '1' then List.asString ('+' :: d)
  else List.asString ('+' :: d)

/-- The characters of a string that are digits or `'+'`, in order
(`raw.replace(/[^\d+]/g, "")` from `server.js`). -/
def keepDigitsPlus (p : String) : List Char :=
  p.toList.filter (fun c => c.isDigit || c == '+')

/-- Whether a character list matches the anchored regex `^1(\d{10})$` used
by `normalizePhone` in `server.js`. -/
def matchesOne10 : List Char → Bool
  | c :: rest => c == '1' && rest.length == 10 && rest.all Char.isDigit
  | [] => false

/-- The `normalizePhone` from `src/server.js`:
`raw.replace(/[^\d+]/g, "")` then `replace(/^1(\d{10})$/, "+1$1")` — keep digits
and plus signs, then rewrite an exact `1` + ten digits to `+1` + digits. -/
def normalizePhone (raw : String) : String :=
  let t := keepDigitsPlus raw
  if matchesOne10 t then List.asString ('+' :: t) else List.asString t

/-- Contact properties as sent to / stored by HubSpot.  `none` stands for a
property that is absent (never written / not returned). -/
structure ContactProps where
  email : Option String
  phone : Option String
  mobilephone : Option String
  firstname : Option String
  lastname : Option String
  lifecyclestage : Option String
  source : Option String
  address : Option String
  city : Option String
  state : Option String
  zip : Option String
  hs_lead_status : Option String
  hs_lastcontacted : Option String
  last_summary : Option String
deriving DecidableEq

/-- A contact properties record with every property absent. -/
def emptyProps : ContactProps :=
  ⟨none, none, none, none, none, none, none, none, none, none, none, none, none, none⟩

/-- A stored CRM contact. -/
structure ContactRec where
  id : Nat
  props : ContactProps
deriving DecidableEq

/-- A stored CRM deal (fields of the tool-call `create_deal` payload, plus
the contact it was associated to, when the association call succeeded). -/
structure DealRec where
  id : Nat
  dealname : Option String
  amount : Option String
  pipeline : Option String
  dealstage : Option String
  closedate : Option String
  assocContact : Option Nat
deriving DecidableEq

/-- A stored CRM note, with the contact it was associated to when the
association call succeeded. -/
structure NoteRec where
  id : Nat
  body : String
  assocContact : Option Nat
deriving DecidableEq

/-- The modelled CRM world: stored objects, a fresh-id counter, and one
failure-injection flag per HubSpot endpoint; a set flag makes the
corresponding HTTP call raise. -/
structure Crm where
  contacts : List ContactRec
  deals : List DealRec
  notes : List NoteRec
  nextId : Nat
  failSearch : Bool
  failCreateContact : Bool
  failPatchContact : Bool
  failCreateDeal : Bool
  failAssocDeal : Bool
  failCreateNote : Bool
  failAssocNote : Bool
deriving DecidableEq

/-- The empty CRM world with no injected failures. -/
def crm0 : Crm :=
  ⟨[], [], [], 0, false, false, false, false, false, false, false⟩

/-- The effect monad of the bridge: explicit CRM state passing plus
JavaScript exceptions (a thrown axios/SDK error is `Except.error`). -/
def M (α : Type) : Type := Crm → Except String α × Crm

instance : Monad M where
  pure a := fun s => (Except.ok a, s)
  bind x f := fun s =>
    match x s with
    | (Except.ok a, s1) => f a s1
    | (Except.error e, s1) => (Except.error e, s1)

/-- Raise a JavaScript exception. -/
def mthrow {α : Type} (e : String) : M α := fun s => (Except.error e, s)

/-- JavaScript `try { x } catch (e) { h e }`. -/
def mtry {α : Type} (x : M α) (h : String → M α) : M α := fun s =>
  match x s with
  | (Except.ok a, s1) => (Except.ok a, s1)
  | (Except.error e, s1) => h e s1

/-- The `POST /crm/v3/objects/contacts` — create a contact. -/
def hsCreateContact (props : ContactProps) : M Nat := fun s =>
  if s.failCreateContact then (Except.error "create contact failed", s)
  else (Except.ok s.nextId,
    { s with contacts := s.contacts ++ [⟨s.nextId, props⟩], nextId := s.nextId + 1 })

/-- Field-wise merge a PATCH payload into stored properties: a property
present in the payload overwrites, an absent one is kept. -/
def ov (n o : Option String) : Option String :=
  match n with
  | some v => some v
  | none => o

/-- HubSpot PATCH merge semantics over a full properties record. -/
def patchProps (old incoming : ContactProps) : ContactProps :=
  ⟨ov incoming.email old.email, ov incoming.phone old.phone,
   ov incoming.mobilephone old.mobilephone, ov incoming.firstname old.firstname,
   ov incoming.lastname old.lastname, ov incoming.lifecyclestage old.lifecyclestage,
   ov incoming.source old.source, ov incoming.address old.address,
   ov incoming.city old.city, ov incoming.state old.state, ov incoming.zip old.zip,
   ov incoming.hs_lead_status old.hs_lead_status,
   ov incoming.hs_lastcontacted old.hs_lastcontacted,
   ov incoming.last_summary old.last_summary⟩

/-- The `PATCH /crm/v3/objects/contacts/:id` — update a contact; raises on an
injected failure or an unknown id (HubSpot answers 404, axios throws). -/
def hsPatchContact (cid : Nat) (props : ContactProps) : M Unit := fun s =>
  if s.failPatchContact then (Except.error "patch contact failed", s)
  else if s.contacts.any (fun c => c.id == cid) then
    (Except.ok (),
     { s with contacts := (s.contacts.map
         (fun c => if c.id == cid then ⟨c.id, patchProps c.props props⟩ else c)) })
  else (Except.error "contact not found", s)

/-- Contact search with filter `email EQ value` (limit 1): the first stored
contact whose email equals the value. -/
def hsSearchEmailEq (email : String) : M (Option Nat) := fun s =>
  if s.failSearch then (Except.error "search failed", s)
  else (Except.ok ((s.contacts.find? (fun c => c.props.email == some email)).map
    (fun c => c.id)), s)

/-- Contact search with filter `phone EQ value`: the first stored contact
whose phone equals the value. -/
def hsSearchPhoneEq (phone : String) : M (Option Nat) := fun s =>
  if s.failSearch then (Except.error "search failed", s)
  else (Except.ok ((s.contacts.find? (fun c => c.props.phone == some phone)).map
    (fun c => c.id)), s)

/-- Contact search with OR-ed filter groups `phone EQ v`, `mobilephone EQ v`,
`email EQ v` (limit 1), as built by `searchContact` in `part_003`; a filter
group is present only when its value is truthy. -/
def hsSearchPhoneOrEmail (phone email : Option String) : M (Option ContactRec) := fun s =>
  if s.failSearch then (Except.error "search failed", s)
  else (Except.ok (s.contacts.find? (fun c =>
    (truthy phone && (c.props.phone == phone || c.props.mobilephone == phone)) ||
    (truthy email && c.props.email == email))), s)

/-- Contact q-search by email with case-insensitive client-side match
(limit 1), as used by `upsertContact` in `part_002`. -/
def hsSearchEmailCI (email : String) : M (Option Nat) := fun s =>
  if s.failSearch then (Except.error "search failed", s)
  else (Except.ok ((s.contacts.find? (fun c =>
    match c.props.email with
    | some e => e.toLower == email.toLower
    | none => false)).map (fun c => c.id)), s)

/-- The `POST /crm/v3/objects/deals` — create a deal. -/
def hsCreateDeal (dealname amount pipeline dealstage closedate : Option String) :
    M Nat := fun s =>
  if s.failCreateDeal then (Except.error "create deal failed", s)
  else (Except.ok s.nextId,
    { s with deals := s.deals ++ [⟨s.nextId, dealname, amount, pipeline, dealstage,
        closedate, none⟩], nextId := s.nextId + 1 })

/-- The `PUT` deal-to-contact association. -/
def hsAssocDealContact (dealId contactId : Nat) : M Unit := fun s =>
  if s.failAssocDeal then (Except.error "assoc deal failed", s)
  else (Except.ok (),
    { s with deals := (s.deals.map
        (fun d => if d.id == dealId then { d with assocContact := some contactId } else d)) })

/-- The `POST /crm/v3/objects/notes` — create a note. -/
def hsCreateNote (body : String) : M Nat := fun s =>
  if s.failCreateNote then (Except.error "create note failed", s)
  else (Except.ok s.nextId,
    { s with notes := s.notes ++ [⟨s.nextId, body, none⟩], nextId := s.nextId + 1 })

/-- The `PUT` note-to-contact association. -/
def hsAssocNoteContact (noteId contactId : Nat) : M Unit := fun s =>
  if s.failAssocNote then (Except.error "assoc note failed", s)
  else (Except.ok (),
    { s with notes := (s.notes.map
        (fun n => if n.id == noteId then { n with assocContact := some contactId } else n)) })

/-- Arguments of a tool call: the union of the fields the tool-call
handlers destructure (`undefined` is `none`). -/
structure ToolArgs where
  email : Option String
  phone : Option String
  firstname : Option String
  lastname : Option String
  lifecyclestage : Option String
  source : Option String
  propertyAddress : Option String
  propertyCity : Option String
  propertyState : Option String
  propertyZip : Option String
  dealname : Option String
  amount : Option String
  pipeline : Option String
  dealstage : Option String
  close_date : Option String
  associated_contact_id : Option Nat
  contact_id : Option Nat
  note : Option String
  notes : Option String
deriving DecidableEq

/-- Tool arguments with every field absent. -/
def noArgs : ToolArgs :=
  ⟨none, none, none, none, none, none, none, none, none, none, none, none, none,
   none, none, none, none, none, none⟩

/-- The `properties` object built by `upsertContact` in `part_001` and
`part_003`: each field is included only when its argument is truthy. -/
def mkContactProps (a : ToolArgs) : ContactProps :=
  { email := oTruthy a.email
    phone := oTruthy a.phone
    mobilephone := none
    firstname := oTruthy a.firstname
    lastname := oTruthy a.lastname
    lifecyclestage := oTruthy a.lifecyclestage
    source := oTruthy a.source
    address := oTruthy a.propertyAddress
    city := oTruthy a.propertyCity
    state := oTruthy a.propertyState
    zip := oTruthy a.propertyZip
    hs_lead_status := none
    hs_lastcontacted := none
    last_summary := none }

/-- The `properties` object built by `upsertContact` in `part_002` (no
property-address fields in that variant). -/
def mkPropsP2 (a : ToolArgs) : ContactProps :=
  { email := oTruthy a.email
    phone := oTruthy a.phone
    mobilephone := none
    firstname := oTruthy a.firstname
    lastname := oTruthy a.lastname
    lifecyclestage := oTruthy a.lifecyclestage
    source := oTruthy a.source
    address := none
    city := none
    state := none
    zip := none
    hs_lead_status := none
    hs_lastcontacted := none
    last_summary := none }

/-- The `findContactIdByEmail` from `part_001`/`part_003`: no email means no
lookup; a search error is caught and yields `null`. -/
def findContactIdByEmail (email : Option String) : M (Option Nat) :=
  if truthy email then mtry (hsSearchEmailEq (email.getD "")) (fun _ => pure none)
  else pure none

/-- The result shape of `upsertContact`: `{id, created: true}` or
`{id, updated: true}` (`created = false` encodes the updated case). -/
structure UpsertRes where
  id : Nat
  created : Bool
deriving DecidableEq

/-- The `upsertContact` from `part_001` (lines 76-113): look up by email only,
patch if found, create otherwise. -/
def upsertP1 (a : ToolArgs) : M UpsertRes := do
  let cid ← findContactIdByEmail a.email
  match cid with
  | some i => do
    hsPatchContact i (mkContactProps a)
    pure ⟨i, false⟩
  | none => do
    let i ← hsCreateContact (mkContactProps a)
    pure ⟨i, true⟩

/-- The `createDeal` from `part_001`: create unconditionally, then best-effort
associate to a contact (association failure caught and logged). -/
def createDealP1 (a : ToolArgs) : M Nat := do
  let did ← hsCreateDeal a.dealname a.amount (oTruthy a.pipeline) (oTruthy a.dealstage)
    (oTruthy a.close_date)
  match a.associated_contact_id with
  | some cid => do
    mtry (hsAssocDealContact did cid) (fun _ => pure ())
    pure did
  | none => pure did

/-- The `createNote` from `part_001` (lines 138-157): create unconditionally,
then best-effort associate to a contact (association failure caught). -/
def createNoteP1 (a : ToolArgs) : M Nat := do
  let nid ← hsCreateNote (a.note.getD "")
  match a.contact_id with
  | some cid => do
    mtry (hsAssocNoteContact nid cid) (fun _ => pure ())
    pure nid
  | none => pure nid

/-- The per-call outcome shapes produced by the dispatchers. -/
inductive ToolResultData where
  | contactRes (id : Nat) (created : Bool)
  | dealRes (id : Nat)
  | noteRes (id : Nat)
  | scheduled (url : String)
  | notWired (name : String)
  | unknownTool (name : String)
  | errorRes (msg : String) (detail : String)
deriving DecidableEq

/-- One entry of the `results` array: the originating call id plus the
result payload. -/
structure ToolResult where
  toolCallId : Option String
  result : ToolResultData
deriving DecidableEq

/-- One tool call of a webhook batch: `{id, function: {name, arguments}}`. -/
structure ToolCall where
  id : Option String
  name : String
  args : ToolArgs
deriving DecidableEq

/-- The tool-name switch of the `/webhook` of `part_001` (canonical names plus
aliases; not-yet-wired names answer a no-op, unknown names an error). -/
def dispatchP1 (name : String) (a : ToolArgs) : M ToolResultData :=
  if name == "create_or_update_hubspot_contact" || name == "create_or_update_contact" then do
    let r ← upsertP1 a
    pure (ToolResultData.contactRes r.id r.created)
  else if name == "create_hubspot_deal" || name == "create_deal" then do
    let i ← createDealP1 a
    pure (ToolResultData.dealRes i)
  else if name == "log_hubspot_note" || name == "log_note" then do
    let i ← createNoteP1 a
    pure (ToolResultData.noteRes i)
  else if name == "schedule_meeting_placeholder" || name == "schedule_followup" then
    pure (ToolResultData.scheduled "https://calendly.com/pg-taylorrealestategroups/30min")
  else if name == "set_lead_status" || name == "mark_dnc" ||
      name == "remove_number_from_contact" || name == "live_transfer" ||
      name == "send_sms" then
    pure (ToolResultData.notWired name)
  else
    pure (ToolResultData.unknownTool name)

/-- One iteration of the `part_001` dispatch loop: the switch is wrapped in a
per-call `try/catch` that converts an exception to an error-shaped result. -/
def runCallP1 (c : ToolCall) : M ToolResultData :=
  mtry (dispatchP1 c.name c.args)
    (fun e => pure (ToolResultData.errorRes ("Tool " ++ c.name ++ " failed") e))

/-- The dispatch loop of the `/webhook` of `part_001` (lines 204-256): one result
per call, pushed in input order. -/
def processP1 : List ToolCall → M (List ToolResult)
  | [] => pure []
  | c :: rest => do
    let r ← runCallP1 c
    let rs ← processP1 rest
    pure (⟨c.id, r⟩ :: rs)

/-- The `upsertContact` from `part_002`: the email lookup swallows its own
errors, but the PATCH / POST below it can throw. -/
def upsertP2 (a : ToolArgs) : M UpsertRes := do
  let cid ←
    if truthy a.email then mtry (hsSearchEmailCI (a.email.getD "")) (fun _ => pure none)
    else pure none
  match cid with
  | some i => do
    hsPatchContact i (mkPropsP2 a)
    pure ⟨i, false⟩
  | none => do
    let i ← hsCreateContact (mkPropsP2 a)
    pure ⟨i, true⟩

/-- The `createDeal` from `part_002`: pipeline and stage fall back to env
defaults; the association call is not wrapped in a `try`. -/
def createDealP2 (a : ToolArgs) : M Nat := do
  let did ← hsCreateDeal a.dealname a.amount (some (jsOrS a.pipeline "default"))
    (some (jsOrS a.dealstage "appointmentscheduled")) (oTruthy a.close_date)
  match a.associated_contact_id with
  | some cid => do
    hsAssocDealContact did cid
    pure did
  | none => pure did

/-- The `createNote` from `part_002` (lines 90-104): the association call is not
wrapped in a `try`, so an association failure propagates to the caller. -/
def createNoteP2 (a : ToolArgs) : M Nat := do
  let nid ← hsCreateNote (a.note.getD "")
  match a.contact_id with
  | some cid => do
    hsAssocNoteContact nid cid
    pure nid
  | none => pure nid

/-- The tool-name switch of the `/webhook` of `part_002` (canonical names only,
no aliases, no not-yet-wired stubs). -/
def dispatchP2 (name : String) (a : ToolArgs) : M ToolResultData :=
  if name == "create_or_update_hubspot_contact" then do
    let r ← upsertP2 a
    pure (ToolResultData.contactRes r.id r.created)
  else if name == "create_hubspot_deal" then do
    let i ← createDealP2 a
    pure (ToolResultData.dealRes i)
  else if name == "log_hubspot_note" then do
    let i ← createNoteP2 a
    pure (ToolResultData.noteRes i)
  else if name == "schedule_meeting_placeholder" then
    pure (ToolResultData.scheduled "https://calendly.com/pg-taylorrealestategroups/30min")
  else
    pure (ToolResultData.unknownTool name)

/-- The dispatch loop of the `/webhook` of `part_002` (lines 126-157): there is
no per-call `try/catch`, so an exception aborts the whole loop. -/
def processP2 : List ToolCall → M (List ToolResult)
  | [] => pure []
  | c :: rest => do
    let d ← dispatchP2 c.name c.args
    let rs ← processP2 rest
    pure (⟨c.id, d⟩ :: rs)

/-- The `/webhook` body of `part_002` after signature checking: the loop runs
under a route-level `try/catch` that answers a single server-error result
(still HTTP 200) when anything throws. -/
def webhookP2 (calls : List ToolCall) : M (List ToolResult) :=
  mtry (processP2 calls)
    (fun e => pure [⟨none, ToolResultData.errorRes "Server error" e⟩])

/-- The `searchContact` from `part_003`: OR search by phone / mobilephone /
email, errors caught and turned into `null`. -/
def searchContactP3 (phone email : Option String) : M (Option ContactRec) :=
  mtry (hsSearchPhoneOrEmail phone email) (fun _ => pure none)

/-- The `updateContactProps` from `part_003`: a PATCH whose errors are caught
and only logged. -/
def updateContactProps (cid : Nat) (props : ContactProps) : M Unit :=
  mtry (hsPatchContact cid props) (fun _ => pure ())

/-- The `upsertContact` from `part_003` (lines 442-475): look up by email, then
fall back to a phone search; patch (best-effort) if found, create else. -/
def upsertP3 (a : ToolArgs) : M UpsertRes := do
  let cid0 ← findContactIdByEmail a.email
  let cid ←
    match cid0 with
    | some i => pure (some i)
    | none =>
      if truthy a.phone then do
        let r ← searchContactP3 a.phone none
        pure (r.map (fun c => c.id))
      else pure none
  match cid with
  | some i => do
    updateContactProps i (mkContactProps a)
    pure ⟨i, false⟩
  | none => do
    let i ← hsCreateContact (mkContactProps a)
    pure ⟨i, true⟩

/-- The first segment of `note.split(/\r?\n/)`: characters up to the first
newline, with a carriage return directly before that newline excluded. -/
def firstLineL : List Char → List Char
  | [] => []
  | '\r' :: '\n' :: _ => []
  | '\n' :: _ => []
  | c :: rest => c :: firstLineL rest

/-- JavaScript `String.trim` on a character list. -/
def trimL (l : List Char) : List Char :=
  ((l.dropWhile Char.isWhitespace).reverse.dropWhile Char.isWhitespace).reverse

/-- The `compact` one-liner that `createNote` of `part_003` writes into the
stored `last_summary` of the contact: the trimmed first line of the note, truncated to
its first 237 characters plus `"..."` when longer than 240. -/
def compactOf (noteBody : String) : List Char :=
  let fl := trimL (firstLineL noteBody.toList)
  if fl.length > 240 then fl.take 237 ++ [ '.', '.', '.' ] else fl

/-- The `createNote` from `part_003` (lines 498-522): create the note, best-
effort associate it, then also patch the stored `last_summary` of the contact with the
compacted first line when a contact id was supplied and the line is
non-empty. -/
def createNoteP3 (a : ToolArgs) : M Nat := do
  let nid ← hsCreateNote (a.note.getD "")
  match a.contact_id with
  | some cid => do
    mtry (hsAssocNoteContact nid cid) (fun _ => pure ())
    let compact := compactOf (a.note.getD "")
    if compact.isEmpty then pure nid
    else do
      updateContactProps cid { emptyProps with last_summary := some (List.asString compact) }
      pure nid
  | none => pure nid

/-- The `last_summary` property currently stored on a contact: `none` when
the contact does not exist, `some v` (with `v` possibly absent) else. -/
def contactSummary (s : Crm) (cid : Nat) : Option (Option String) :=
  (s.contacts.find? (fun c => c.id == cid)).map (fun c => c.props.last_summary)

/-- An HTTP response of the `index.js` tool routes, reduced to the fields
the error-handling contract talks about. -/
structure HttpResp where
  status : Nat
  ok : Bool
  contactId : Option Nat
deriving DecidableEq

/-- The `findContactByPhone` from `index.js`: a `phone EQ` search whose errors
are caught and turned into `null`. -/
def findContactByPhoneIdx (phone : String) : M (Option Nat) :=
  mtry (hsSearchPhoneEq phone) (fun _ => pure none)

/-- The `properties` object of `create_or_update_contact` in `index.js`
route: fields are passed through as given (JSON drops `undefined`). -/
def mkPropsIdx (b : ToolArgs) (primary : String) : ContactProps :=
  { email := b.email
    phone := some primary
    mobilephone := none
    firstname := b.firstname
    lastname := b.lastname
    lifecyclestage := none
    source := none
    address := b.propertyAddress
    city := b.propertyCity
    state := b.propertyState
    zip := none
    hs_lead_status := none
    hs_lastcontacted := none
    last_summary := none }

/-- The `POST /tools/create_or_update_contact` route of `index.js` (after
the shared-secret check): 400 when phone is missing, otherwise the body
runs under a `try/catch` that converts any thrown CRM error into an HTTP
500 response. -/
def toolCreateOrUpdateContact (b : ToolArgs) : M HttpResp :=
  if !(truthy b.phone) then pure ⟨400, false, none⟩
  else
    mtry (do
      let primary := normalize (b.phone.getD "")
      let cid0 ← findContactByPhoneIdx primary
      let cid ←
        match cid0 with
        | none => hsCreateContact (mkPropsIdx b primary)
        | some i => do
          hsPatchContact i (mkPropsIdx b primary)
          pure i
      match b.notes with
      | some t =>
        if t == "" then pure ⟨200, true, some cid⟩
        else do
          let nid ← hsCreateNote t
          hsAssocNoteContact nid cid
          pure ⟨200, true, some cid⟩
      | none => pure ⟨200, true, some cid⟩)
    (fun _ => pure ⟨500, false, none⟩)

/-- One entry of the lead-status map of `part_000`:
`{status, verifiedBy}`. -/
structure LeadEntry where
  status : String
  verifiedBy : Option String
deriving DecidableEq

/-- The in-memory lead-status `Map`, as an insertion-ordered association
list. -/
abbrev LeadStore := List (String × LeadEntry)

/-- The `Map.get`. -/
def lookupLead (m : LeadStore) (k : String) : Option LeadEntry :=
  (m.find? (fun q => q.1 == k)).map (fun q => q.2)

/-- The `Map.set`: replace in place when the key exists, append otherwise. -/
def storeSet (m : LeadStore) (k : String) (v : LeadEntry) : LeadStore :=
  if m.any (fun q => q.1 == k) then
    m.map (fun q => if q.1 == k then (k, v) else q)
  else m ++ [(k, v)]

/-- The verified-by number of the existing entry, `none` when there is no
entry (the `prev.verifiedBy` of `{...prev}` with `prev = {}`). -/
def prevVerifiedBy (m : LeadStore) (lid : String) : Option String :=
  match lookupLead m lid with
  | some e => e.verifiedBy
  | none => none

/-- The `POST /lead-status` route of `part_000` (lines 260-270): 400 when a
required field is missing; otherwise merge into the existing entry — the
new status always overwrites, `verifiedBy` is set from the number (falling
back to the previous value) only when the new status is `owner_verified`
and kept unchanged otherwise. -/
def leadStatusRoute (m : LeadStore) (leadId status number : Option String) :
    Nat × LeadStore :=
  if truthy leadId && truthy status then
    let lid := leadId.getD ""
    let st := status.getD ""
    let vb :=
      if st == "owner_verified" then jsOrOpt number (prevVerifiedBy m lid)
      else prevVerifiedBy m lid
    (200, storeSet m lid ⟨st, vb⟩)
  else (400, m)

/-- The response payload of the enrichment handlers: the `assistantOverride`
variables map and the opening-line instruction (the voice-override block,
pure floating-point env tuning, is outside the embedded fragment). -/
structure OverrideResp where
  vars : List (String × String)
  instructions_append : String
deriving DecidableEq

/-- The minimal valid response the handler falls back to on an uncaught
enrichment failure: empty variables, empty instructions. -/
def emptyOverrideResp : OverrideResp := ⟨[], ""⟩

/-- The canned decline instruction of the owner-already-verified skip
path. -/
def skipText : String :=
  "This lead is already owner-verified on another number. Politely say that we already connected with the owner earlier and will update our notes. Then hang up immediately."

/-- The owner-verified skip condition of the `part_000` handler:
a leadId is present, the stored status is `owner_verified`, a number is
present and it differs from the stored verifiedBy. -/
def skipCond (m : LeadStore) (leadId number : Option String) : Bool :=
  truthy leadId &&
  (match lookupLead m (leadId.getD "") with
   | some e => e.status == "owner_verified" && truthy number &&
       !(number == e.verifiedBy)
   | none => false)

/-- The core request handler of `part_000` (lines 273-304): the skip path
answers the decline instruction; otherwise the enrichment result is
returned, and an uncaught enrichment failure is converted into a 200
response with empty variables and empty instructions.  The enrichment
computation is supplied as its outcome (`Except.error` for a thrown
failure). -/
def handlerP0 (m : LeadStore) (leadId number : Option String)
    (enrich : Except String OverrideResp) : Nat × OverrideResp :=
  if skipCond m leadId number then
    (200, ⟨[("leadId", leadId.getD "")], skipText⟩)
  else
    match enrich with
    | Except.ok o => (200, o)
    | Except.error _ => (200, emptyOverrideResp)

/-- Properties of a deal as consumed by the context resolution (`server.js`
and the `part_000`/`part_004` variants, plus the `part_003` snapshot). -/
structure CtxDealProps where
  dealname : Option String
  amount : Option String
  address : Option String
  city : Option String
  state : Option String
  zip : Option String
  property_type : Option String
  asking_price : Option String
  timeline : Option String
  motivation : Option String
  dealstage : Option String
  closedate : Option String
  pipeline : Option String
deriving DecidableEq

/-- A deal record as returned by the deal searches. -/
structure CtxDeal where
  id : Nat
  props : CtxDealProps
deriving DecidableEq

/-- The webhook payload fields the override builder destructures
(`from` is spelled `fromNum` here because `from` is reserved). -/
structure Payload where
  phone : Option String
  fromNum : Option String
  callerPhone : Option String
  property_address : Option String
  address : Option String
  city : Option String
  state : Option String
  caller_name : Option String
  name : Option String
deriving DecidableEq

/-- A payload with every field absent. -/
def noPayload : Payload :=
  ⟨none, none, none, none, none, none, none, none, none⟩

/-- The `get(contact, "properties.x", "")`: empty string when there is no
contact or the property is absent. -/
def getCP (c : Option ContactRec) (sel : ContactProps → Option String) : String :=
  match c with
  | none => ""
  | some cr => (sel cr.props).getD ""

/-- The `get(deal, "properties.x", "")`. -/
def getDP (d : Option CtxDeal) (sel : CtxDealProps → Option String) : String :=
  match d with
  | none => ""
  | some dr => (sel dr.props).getD ""

/-- The `buildLastSummary` shared by `server.js`, `part_000` and `part_004`:
concatenate, in fixed order, whichever of property type, address line,
price, timing, motivation and contact line are non-empty, joined by
a bullet separator. -/
def buildLastSummary (c : Option ContactRec) (d : Option CtxDeal) : String :=
  let fn := getCP c (fun q => q.firstname)
  let ln := getCP c (fun q => q.lastname)
  let email := getCP c (fun q => q.email)
  let phone := getCP c (fun q => q.phone)
  let addr := jsS (getDP d (fun q => q.address)) (getCP c (fun q => q.address))
  let city := jsS (getDP d (fun q => q.city)) (getCP c (fun q => q.city))
  let state := jsS (getDP d (fun q => q.state)) (getCP c (fun q => q.state))
  let ptype := getDP d (fun q => q.property_type)
  let price := jsS (getDP d (fun q => q.asking_price)) (getDP d (fun q => q.amount))
  let timeline := getDP d (fun q => q.timeline)
  let motivation := getDP d (fun q => q.motivation)
  let lines : List String :=
    (if ptype != "" then [ptype] else []) ++
    (if addr != "" || city != "" || state != "" then
      [(addr ++ " " ++ city ++ " " ++ state).trim] else []) ++
    (if price != "" then ["Price feel: " ++ price] else []) ++
    (if timeline != "" then ["Timing: " ++ timeline] else []) ++
    (if motivation != "" then ["Motivation: " ++ motivation] else []) ++
    (if email != "" || phone != "" then
      [("Contact: " ++ fn ++ " " ++ ln ++ " " ++ phone ++ " " ++ email).trim] else [])
  joinSep " • " (lines.filter (fun l => l != ""))

/-- The resolved per-call variables.  The two search results and the
address-fallback search result are supplied as oracles; the source fetches
associated deals only when a contact matched and falls back to the address
search only when no deal was found and an address hint exists, which the
gating below reproduces. -/
structure ResolvedVars where
  seller_first_name : String
  property_address : String
  city : String
  state : String
  last_summary : String
deriving DecidableEq

/-- The variable-resolution core of `buildAssistantOverride` (identical in
`server.js`, `part_000` and `part_004`). -/
def resolveVars (p : Payload) (contacts : List ContactRec)
    (dealsAssoc dealsByAddr : List CtxDeal) : ResolvedVars :=
  let property_address := jsOrS p.property_address (jsOrS p.address "")
  let city0 := jsOrS p.city ""
  let state0 := jsOrS p.state ""
  let caller_name := jsOrS p.caller_name (jsOrS p.name "")
  let contact := contacts.head?
  let deals1 : List CtxDeal := if contacts.isEmpty then [] else dealsAssoc
  let deals2 := if deals1.isEmpty && property_address != "" then dealsByAddr else deals1
  let deal := deals2.head?
  { seller_first_name := jsS caller_name (getCP contact (fun q => q.firstname))
    property_address := jsS (getDP deal (fun q => q.address)) property_address
    city := jsS (getDP deal (fun q => q.city)) city0
    state := jsS (getDP deal (fun q => q.state)) state0
    last_summary := buildLastSummary contact deal }

/-- The opening-line suggestion of `server.js` / `part_000`. -/
def openLineSrv (v : ResolvedVars) : String :=
  "OPEN LIKE THIS (adjust naturally): \"Hi " ++
  (if v.seller_first_name != "" then v.seller_first_name ++ ", " else "") ++
  "this is Alex with Taylor Real Estate Group. I am calling about " ++
  (if v.property_address != "" then v.property_address else "your property") ++
  (if v.city != "" then " in " ++ v.city else "") ++
  ". Did I catch you at an okay moment?\" " ++
  (if v.last_summary != "" then "Previous context: " ++ v.last_summary ++ ". " else "") ++
  "Do not read it robotically; keep it conversational."

/-- The opening-line suggestion of `part_004`. -/
def openLineP4 (v : ResolvedVars) : String :=
  "OPEN LIKE THIS (adjust naturally): \"Hey " ++ v.seller_first_name ++ ", " ++
  "thanks for taking the time about " ++
  (if v.property_address != "" then v.property_address else "your property") ++
  (if v.city != "" then " in " ++ v.city else "") ++ ". " ++
  (if v.last_summary != "" then "Quick heads up: " ++ v.last_summary ++ ". " else "") ++
  "Mind if I ask a couple quick questions so PG can review options?\""

/-- The `buildAssistantOverride` of `server.js` (lines 247-319, variables and
instruction part): the opening-line instruction is generated only when the
resolved property address or the summary is non-empty. -/
def buildOverrideSrv (p : Payload) (contacts : List ContactRec)
    (dA dB : List CtxDeal) : OverrideResp :=
  let v := resolveVars p contacts dA dB
  { vars := [("seller_first_name", v.seller_first_name), ("name", v.seller_first_name),
      ("property_address", v.property_address), ("propertyAddress", v.property_address),
      ("city", v.city), ("state", v.state), ("last_summary", v.last_summary)]
    instructions_append :=
      if v.property_address != "" || v.last_summary != "" then openLineSrv v else "" }

/-- The `buildAssistantOverride` of `part_004` (lines 142-206, variables and
instruction part). -/
def buildOverrideP4 (p : Payload) (contacts : List ContactRec)
    (dA dB : List CtxDeal) : OverrideResp :=
  let v := resolveVars p contacts dA dB
  { vars := [("seller_first_name", v.seller_first_name),
      ("property_address", v.property_address),
      ("city", v.city), ("state", v.state), ("last_summary", v.last_summary)]
    instructions_append :=
      if v.property_address != "" || v.last_summary != "" then openLineP4 v else "" }

/-- Look up a variable of an override response, defaulting to the empty
string. -/
def getVar (o : OverrideResp) (k : String) : String :=
  ((o.vars.find? (fun q => q.1 == k)).map (fun q => q.2)).getD ""

/-- The `buildLastSummary` of `part_003` (lines 205-227): `null` without a
contact, otherwise a sentence built from name, last-contact date, CRM
status/stage and the most recent deal.  `fmtDate` stands for the
locale-dependent `toLocaleDateString`. -/
def buildLastSummaryP3 (fmtDate : String → String) (c : Option ContactRec)
    (deals : List CtxDeal) : Option String :=
  match c with
  | none => none
  | some cr =>
    let p := cr.props
    let nameParts := ([p.firstname, p.lastname].filterMap (fun o => o)).filter
      (fun s2 => s2 != "")
    let nm := jsS (joinSep " " nameParts) "the owner"
    let lastContact :=
      if truthy p.hs_lastcontacted then some (fmtDate (p.hs_lastcontacted.getD ""))
      else none
    let statusBit :=
      if truthy p.hs_lead_status then some ("status " ++ p.hs_lead_status.getD "")
      else none
    let stageBit :=
      if truthy p.lifecyclestage then some ("stage " ++ p.lifecyclestage.getD "")
      else none
    let dealSnippet :=
      match deals.head? with
      | some d0 => some ("Recent deal: " ++ jsS (d0.props.dealname.getD "") "—" ++
          " (" ++ jsS (d0.props.dealstage.getD "") "stage unknown" ++ ")")
      | none => none
    let ss := ([statusBit, stageBit].filterMap (fun o => o))
    let bits :=
      ["Spoke with " ++ nm ++
        (match lastContact with
         | some lc => " (last contact " ++ lc ++ ")"
         | none => "") ++ "."] ++
      (if ss.isEmpty then [] else ["CRM " ++ joinSep ", " ss ++ "."]) ++
      (match dealSnippet with
       | some t => [t]
       | none => [])
    some (joinSep " " bits)

/-- The response of the `part_003` assistant-request webhook, reduced to the
fields the claims talk about. -/
structure P3AssistResp where
  property_street : String
  last_summary : String
  firstMessage : String
deriving DecidableEq

/-- The `/webhooks/vapi/assistant-request` route of `part_003` (lines
265-306): the street falls back to the metadata, then the variables, then
the literal `"your property"`; the summary starts from a non-empty default
and is replaced by the built summary only when that is truthy; the
`firstMessage` template is always sent.  Contact and deal lookups are
supplied as oracles, and deals are consulted only when a contact
matched. -/
def assistantRequestP3 (fmtDate : String → String) (hasToken : Bool)
    (callerNumber metaStreet varStreet : Option String)
    (contact : Option ContactRec) (deals : List CtxDeal) : P3AssistResp :=
  let property_street := jsOrS metaStreet (jsOrS varStreet "your property")
  let dealsUsed :=
    match contact with
    | some _ => deals
    | none => []
  let ls0 := "No prior context in CRM."
  let last_summary :=
    if hasToken && truthy callerNumber then
      match buildLastSummaryP3 fmtDate contact dealsUsed with
      | some b => if b != "" then b else ls0
      | none => ls0
    else ls0
  ⟨property_street, last_summary,
   "Hi, this is Alex with Taylor Real Estate Group. I am calling about your property on \x7b\x7bproperty_street\x7d\x7d. Did I catch you at an okay time?"⟩

/-- The environment of `hsSearchContactsByPhone` in `server.js`: whether
the SDK is installed and a token is configured, and the outcome of each of
the two possible transport attempts. -/
structure SearchEnv where
  sdkAvailable : Bool
  hasToken : Bool
  sdkResult : Except String (List ContactRec)
  restResult : Except String (List ContactRec)

/-- The `hsSearchContactsByPhone` from `server.js` (lines 49-89): an empty
normalized phone or a missing token short-circuits to an empty list with no
network call; otherwise the SDK is tried first (falling through to REST on
error) and every transport failure degrades to an empty list.  The second
component counts the network calls attempted. -/
def hsSearchContactsByPhoneSrv (env : SearchEnv) (phone : String) :
    List ContactRec × Nat :=
  let q := normalizePhone phone
  if q == "" || !env.hasToken then ([], 0)
  else if env.sdkAvailable then
    match env.sdkResult with
    | Except.ok rs => (rs, 1)
    | Except.error _ =>
      match env.restResult with
      | Except.ok rs => (rs, 2)
      | Except.error _ => ([], 2)
  else
    match env.restResult with
    | Except.ok rs => (rs, 1)
    | Except.error _ => ([], 1)

/-- Run a gateway operation twice from the empty CRM world, as the
upsert-twice scenarios do. -/
def runTwice (op : ToolArgs → M UpsertRes) (a1 a2 : ToolArgs) :
    Except String (UpsertRes × UpsertRes) × Crm :=
  (do
    let x ← op a1
    let y ← op a2
    pure (x, y)) crm0

/-- A batch of three `part_001` calls whose second one (a deal creation
that will hit an injected CRM failure) throws. -/
def c4callsP1 : List ToolCall :=
  [⟨some "a", "log_note", noArgs⟩,
   ⟨some "b", "create_deal", { noArgs with dealname := some "D" }⟩,
   ⟨some "c", "log_note", noArgs⟩]

/-- A CRM world where deal creation fails. -/
def c4crmP1 : Crm := { crm0 with failCreateDeal := true }

/-- A batch of three `part_002` note calls whose second one (a note with a
contact association that will hit an injected failure) throws. -/
def c4callsP2 : List ToolCall :=
  [⟨some "a", "log_hubspot_note", noArgs⟩,
   ⟨some "b", "log_hubspot_note", { noArgs with contact_id := some 7 }⟩,
   ⟨some "c", "log_hubspot_note", noArgs⟩]

/-- A CRM world where note association fails. -/
def c4crmP2 : Crm := { crm0 with failAssocNote := true }

/-- Phone-only upsert arguments (no email). -/
def c5args : ToolArgs := { noArgs with phone := some "+15551234567" }

/-- First same-email upsert arguments of the witness scenario. -/
def c5w1 : ToolArgs := { noArgs with email := some "a@b.com", firstname := some "Ann" }

/-- Second same-email upsert arguments of the witness scenario. -/
def c5w2 : ToolArgs := { noArgs with email := some "a@b.com", firstname := some "Bea" }

/-- Note-with-contact arguments. -/
def c6args : ToolArgs := { noArgs with contact_id := some 7, note := some "hello" }

/-- A CRM world where note association fails. -/
def c6crm : Crm := { crm0 with failAssocNote := true }

/-- A CRM world with contact creation failing. -/
def c1crm : Crm := { crm0 with failCreateContact := true }

/-- A contact-creation body with only a phone. -/
def c1body : ToolArgs := { noArgs with phone := some "6155551234" }

/-- A search environment with no SDK, a token, and a failing transport. -/
def c7env : SearchEnv := ⟨false, true, Except.error "down", Except.error "down"⟩

/-- A CRM world holding one contact with no stored summary. -/
def c10crm : Crm := { crm0 with contacts := [⟨0, emptyProps⟩], nextId := 1 }

/-- A note whose first line carries leading whitespace. -/
def c10args : ToolArgs := { noArgs with contact_id := some 0, note := some " hi" }

/-- A plain one-line note. -/
def c10argsW : ToolArgs := { noArgs with contact_id := some 0, note := some "hello" }

theorem toList_asString (l : List Char) : (List.asString l).toList = l := rfl

theorem asString_toList (s : String) : List.asString s.toList = s := rfl

theorem beq_false_of_ne {α : Type} [BEq α] [LawfulBEq α] {a b : α} (h : a ≠ b) :
    (a == b) = false := by
  cases hb : a == b with
  | true => exact absurd (eq_of_beq hb) h
  | false => rfl

theorem truthy_some {e : String} (h : e ≠ "") : truthy (some e) = true := by
  simp [truthy, beq_false_of_ne h]

theorem oTruthy_some {e : String} (h : e ≠ "") : oTruthy (some e) = some e := by
  simp [oTruthy, truthy_some h]

theorem filter_idem {α : Type} (q : α → Bool) (l : List α) :
    (l.filter q).filter q = l.filter q := by
  induction l with
  | nil => rfl
  | cons a t ih =>
    cases h : q a with
    | true => simp [List.filter_cons, h, ih]
    | false => simp [List.filter_cons, h, ih]

theorem digitsOf_def (p : String) : digitsOf p = p.toList.filter Char.isDigit := rfl

theorem digitsOf_asString (l : List Char) :
    digitsOf (List.asString l) = l.filter Char.isDigit := rfl

theorem normalize_empty {p : String} (h : digitsOf p = []) : normalize p = p := by
  simp [normalize, h]

theorem normalize_ten {p : String} (h : (digitsOf p).length = 10) :
    normalize p = List.asString ('+' :: '1' :: digitsOf p) := by
  have hne : (digitsOf p).isEmpty = false := by
    cases hd : digitsOf p with
    | nil => rw [hd] at h; simp at h
    | cons a t => simp
  simp [normalize, hne, h]

theorem normalize_other {p : String} (hne : digitsOf p ≠ [])
    (h10 : (digitsOf p).length ≠ 10) :
    normalize p = List.asString ('+' :: digitsOf p) := by
  have hne' : (digitsOf p).isEmpty = false := by
    cases hd : digitsOf p with
    | nil => exact absurd hd hne
    | cons a t => simp
  have h10' : ((digitsOf p).length == 10) = false := beq_false_of_ne h10
  simp only [normalize, hne', Bool.false_eq_true, if_false, h10']
  split <;> rfl

theorem digits_of_plus_one_digits (p : String) :
    digitsOf (List.asString ('+' :: '1' :: digitsOf p)) = '1' :: digitsOf p := by
  have c1 : Char.isDigit '+' = false := by decide
  have c2 : Char.isDigit '1' = true := by decide
  rw [digitsOf_asString]
  simp [List.filter_cons, c1, c2, digitsOf_def, filter_idem]

theorem digits_of_plus_digits (p : String) :
    digitsOf (List.asString ('+' :: digitsOf p)) = digitsOf p := by
  have c1 : Char.isDigit '+' = false := by decide
  rw [digitsOf_asString]
  simp [List.filter_cons, c1, digitsOf_def, filter_idem]

theorem normalize_idem (p : String) : normalize (normalize p) = normalize p := by
  by_cases h0 : digitsOf p = []
  · rw [normalize_empty h0]
    exact normalize_empty h0
  · by_cases h10 : (digitsOf p).length = 10
    · rw [normalize_ten h10]
      have hd := digits_of_plus_one_digits p
      rw [normalize_other (by rw [hd]; simp) (by rw [hd]; simp [h10]), hd]
    · rw [normalize_other h0 h10]
      have hd := digits_of_plus_digits p
      rw [normalize_other (by rw [hd]; exact h0) (by rw [hd]; exact h10), hd]

theorem keep_asString (l : List Char) :
    keepDigitsPlus (List.asString l) = l.filter (fun c => c.isDigit || c == '+') := rfl

theorem keepDigitsPlus_def (p : String) :
    keepDigitsPlus p = p.toList.filter (fun c => c.isDigit || c == '+') := rfl

theorem keep_of_plus_keep (s : String) :
    keepDigitsPlus (List.asString ('+' :: keepDigitsPlus s)) = '+' :: keepDigitsPlus s := by
  have hplus : (Char.isDigit '+' || ('+' == '+')) = true := by decide
  rw [keep_asString]
  simp [List.filter_cons, hplus, keepDigitsPlus_def, filter_idem]

theorem keep_of_keep (s : String) :
    keepDigitsPlus (List.asString (keepDigitsPlus s)) = keepDigitsPlus s := by
  rw [keep_asString, keepDigitsPlus_def, filter_idem]

theorem matchesOne10_plus (t : List Char) : matchesOne10 ('+' :: t) = false := by
  have : (('+' : Char) == '1') = false := by decide
  simp [matchesOne10, this]

theorem normalizePhone_idem (s : String) :
    normalizePhone (normalizePhone s) = normalizePhone s := by
  cases hm : matchesOne10 (keepDigitsPlus s) with
  | true =>
    have h1 : normalizePhone s = List.asString ('+' :: keepDigitsPlus s) := by
      simp [normalizePhone, hm]
    rw [h1]
    simp [normalizePhone, keep_of_plus_keep, matchesOne10_plus]
  | false =>
    have h1 : normalizePhone s = List.asString (keepDigitsPlus s) := by
      simp [normalizePhone, hm]
    rw [h1]
    simp [normalizePhone, keep_of_keep, hm]

theorem M_bind_eq {α β : Type} (x : M α) (f : α → M β) (s : Crm) :
    (x >>= f) s =
      match x s with
      | (Except.ok a, s1) => f a s1
      | (Except.error e, s1) => (Except.error e, s1) := rfl

theorem M_pure_eq {α : Type} (a : α) (s : Crm) : (pure a : M α) s = (Except.ok a, s) := rfl

/-- Claim C2: the Phone Normalizer strips every non-digit, prefixes `+1`
when exactly ten digits remain, `+` otherwise, and maps empty input to
empty output.  This holds of `normalize` in `index.js`; the cited
`normalizePhone` of `server.js` does not follow that algorithm (see the
counterexample), so this is the amended statement: `normalize` implements
the claimed case analysis, while `normalizePhone` returns a ten-digit
all-digit input unchanged, with no prefix at all. -/
theorem C2_amended :
    (∀ p : String,
      (digitsOf p = [] → normalize p = p) ∧
      ((digitsOf p).length = 10 →
        normalize p = List.asString ('+' :: '1' :: digitsOf p)) ∧
      (digitsOf p ≠ [] → (digitsOf p).length ≠ 10 →
        normalize p = List.asString ('+' :: digitsOf p))) ∧
    (∀ q : String, q.toList.all Char.isDigit = true → q.toList.length = 10 →
      normalizePhone q = q) := by
  constructor
  · intro p
    exact ⟨fun h => normalize_empty h, fun h => normalize_ten h,
      fun h1 h2 => normalize_other h1 h2⟩
  · intro q hall hlen
    have hk : keepDigitsPlus q = q.toList := by
      rw [keepDigitsPlus_def]
      apply List.filter_eq_self.mpr
      intro c hc
      rw [List.all_eq_true] at hall
      simp [hall c hc]
    have hm : matchesOne10 (keepDigitsPlus q) = false := by
      rw [hk]
      cases hq : q.toList with
      | nil => rfl
      | cons c rest =>
        have h9 : rest.length = 9 := by
          rw [hq] at hlen
          simpa using hlen
        simp [matchesOne10, h9]
    have hm2 : matchesOne10 q.toList = false := by rw [← hk]; exact hm
    simp only [normalizePhone, hk, hm2, Bool.false_eq_true, if_false]
    exact asString_toList q

/-- Claim C2, counterexample: `normalizePhone` of `server.js` leaves the
ten-digit input `"6155551234"` unchanged instead of producing the claimed
`"+16155551234"`. -/
theorem C2_counterexample :
    normalizePhone "6155551234" = "6155551234" ∧
    ("6155551234" : String) ≠ "+16155551234" := by
  constructor
  · rfl
  · decide

/-- Claim C2, witness: the amended statement evaluated at concrete
inputs. -/
theorem C2_witness :
    normalize "615-555-1234" = "+16155551234" ∧
    normalizePhone "6155551234" = "6155551234" := by
  constructor
  · have h := (C2_amended.1 "615-555-1234").2.1 (by decide)
    rw [h]
    rfl
  · exact C2_amended.2 "6155551234" (by decide) (by decide)

/-- Claim C3: both phone normalizers are idempotent — normalizing the
result of normalization returns the same value as normalizing once, for
`normalize` of `index.js` and `normalizePhone` of `server.js`. -/
theorem C3_idempotent :
    ∀ s : String,
      normalize (normalize s) = normalize s ∧
      normalizePhone (normalizePhone s) = normalizePhone s :=
  fun s => ⟨normalize_idem s, normalizePhone_idem s⟩

theorem runCallP1_ok (c : ToolCall) (s : Crm) :
    ∃ d s1, runCallP1 c s = (Except.ok d, s1) := by
  unfold runCallP1 mtry
  rcases hd : dispatchP1 c.name c.args s with ⟨r, s1⟩
  cases r with
  | ok a => exact ⟨a, s1, by simp [hd]⟩
  | error e =>
    exact ⟨ToolResultData.errorRes ("Tool " ++ c.name ++ " failed") e, s1,
      by simp [hd, M_pure_eq]⟩

theorem processP1_ok (calls : List ToolCall) :
    ∀ s : Crm, ∃ l s2, processP1 calls s = (Except.ok l, s2) ∧
      l.map (fun r => r.toolCallId) = calls.map (fun c => c.id) := by
  induction calls with
  | nil => exact fun s => ⟨[], s, rfl, rfl⟩
  | cons c rest ih =>
    intro s
    obtain ⟨d, s1, hd⟩ := runCallP1_ok c s
    obtain ⟨l, s2, hl, hmap⟩ := ih s1
    refine ⟨⟨c.id, d⟩ :: l, s2, ?_, ?_⟩
    · simp [processP1, M_bind_eq, hd, hl, M_pure_eq]
    · simp [hmap]

/-- Claim C4: the `part_001` Tool-Call Dispatcher produces exactly one
result per input call, in input order, each tagged with the originating
call id, whatever the CRM does; and in a batch of three calls whose second
one throws, the second result is error-shaped while the first and third
carry their normal results.  (The cited `part_002` variant violates the
claim — see the counterexample — so this amended statement is about the
`part_001` loop, whose per-call `try/catch` provides the isolation.) -/
theorem C4_amended :
    (∀ (calls : List ToolCall) (s : Crm),
      ∃ l s2, processP1 calls s = (Except.ok l, s2) ∧
        l.map (fun r => r.toolCallId) = calls.map (fun c => c.id)) ∧
    processP1 c4callsP1 c4crmP1 =
      (Except.ok
        [⟨some "a", ToolResultData.noteRes 0⟩,
         ⟨some "b", ToolResultData.errorRes "Tool create_deal failed" "create deal failed"⟩,
         ⟨some "c", ToolResultData.noteRes 1⟩],
       { c4crmP1 with notes := [⟨0, "", none⟩, ⟨1, "", none⟩], nextId := 2 }) :=
  ⟨processP1_ok, by decide⟩

/-- Claim C4, counterexample: the `part_002` `/webhook` loop has no
per-call `try/catch`; on a batch of three calls whose second one throws it
reports a single server-error result instead of three results, even though
the notes of the first and second call were created. -/
theorem C4_counterexample :
    (webhookP2 c4callsP2 c4crmP2).1 =
      Except.ok [⟨none, ToolResultData.errorRes "Server error" "assoc note failed"⟩] ∧
    c4callsP2.length = 3 ∧
    (webhookP2 c4callsP2 c4crmP2).2.notes.length = 2 := by
  refine ⟨by decide, by decide, by decide⟩

/-- Claim C5: two upsert calls with the same non-empty email give exactly
one created contact followed by one update of the same record, never two
creates — proved for both the `part_001` and the `part_003` variant; the
email-preferred-else-phone lookup holds of `part_003` only (two phone-only
calls there give one create then one update), while `part_001` looks up by
email alone (see the counterexample), which is the amendment. -/
theorem C5_amended :
    (∀ (e : String) (a1 a2 : ToolArgs), e ≠ "" → a1.email = some e → a2.email = some e →
      (runTwice upsertP1 a1 a2).1 = Except.ok (⟨0, true⟩, ⟨0, false⟩) ∧
      (runTwice upsertP1 a1 a2).2.contacts.length = 1 ∧
      (runTwice upsertP3 a1 a2).1 = Except.ok (⟨0, true⟩, ⟨0, false⟩) ∧
      (runTwice upsertP3 a1 a2).2.contacts.length = 1) ∧
    (∀ (ph : String) (b1 b2 : ToolArgs), ph ≠ "" → b1.email = none → b2.email = none →
      b1.phone = some ph → b2.phone = some ph →
      (runTwice upsertP3 b1 b2).1 = Except.ok (⟨0, true⟩, ⟨0, false⟩) ∧
      (runTwice upsertP3 b1 b2).2.contacts.length = 1) := by
  constructor
  · intro e a1 a2 he h1 h2
    have ht := truthy_some he
    have hot := oTruthy_some he
    have hf0 : findContactIdByEmail a1.email crm0 = (Except.ok none, crm0) := by
      rw [h1]
      simp [findContactIdByEmail, ht, mtry, hsSearchEmailEq, crm0]
    have hmail : (mkContactProps a1).email = some e := by
      simp [mkContactProps, h1, hot]
    have hcreate1 : hsCreateContact (mkContactProps a1) crm0 =
        (Except.ok 0,
         (⟨[⟨0, mkContactProps a1⟩], [], [], 1, false, false, false, false, false,
           false, false⟩ : Crm)) := by
      simp [hsCreateContact, crm0]
    have hup1 : upsertP1 a1 crm0 =
        (Except.ok ⟨0, true⟩,
         (⟨[⟨0, mkContactProps a1⟩], [], [], 1, false, false, false, false, false,
           false, false⟩ : Crm)) := by
      simp [upsertP1, M_bind_eq, hf0, hcreate1, M_pure_eq]
    have hfind1 : findContactIdByEmail a2.email
        (⟨[⟨0, mkContactProps a1⟩], [], [], 1, false, false, false, false, false,
          false, false⟩ : Crm) =
        (Except.ok (some 0),
         (⟨[⟨0, mkContactProps a1⟩], [], [], 1, false, false, false, false, false,
           false, false⟩ : Crm)) := by
      rw [h2]
      simp [findContactIdByEmail, ht, mtry, hsSearchEmailEq, List.find?, hmail]
    have hpatch : hsPatchContact 0 (mkContactProps a2)
        (⟨[⟨0, mkContactProps a1⟩], [], [], 1, false, false, false, false, false,
          false, false⟩ : Crm) =
        (Except.ok (),
         (⟨[⟨0, patchProps (mkContactProps a1) (mkContactProps a2)⟩], [], [], 1,
           false, false, false, false, false, false, false⟩ : Crm)) := by
      simp [hsPatchContact]
    have hup2 : upsertP1 a2
        (⟨[⟨0, mkContactProps a1⟩], [], [], 1, false, false, false, false, false,
          false, false⟩ : Crm) =
        (Except.ok ⟨0, false⟩,
         (⟨[⟨0, patchProps (mkContactProps a1) (mkContactProps a2)⟩], [], [], 1,
           false, false, false, false, false, false, false⟩ : Crm)) := by
      simp [upsertP1, M_bind_eq, hfind1, hpatch, M_pure_eq]
    have hsearch0 : ∀ (po eo : Option String),
        searchContactP3 po eo crm0 = (Except.ok none, crm0) := by
      intro po eo
      simp [searchContactP3, mtry, hsSearchPhoneOrEmail, crm0]
    have hup1c : upsertP3 a1 crm0 =
        (Except.ok ⟨0, true⟩,
         (⟨[⟨0, mkContactProps a1⟩], [], [], 1, false, false, false, false, false,
           false, false⟩ : Crm)) := by
      cases hph : truthy a1.phone with
      | true =>
        simp [upsertP3, M_bind_eq, hf0, hph, hsearch0, hcreate1, M_pure_eq]
      | false =>
        simp [upsertP3, M_bind_eq, hf0, hph, hcreate1, M_pure_eq]
    have hupdate : updateContactProps 0 (mkContactProps a2)
        (⟨[⟨0, mkContactProps a1⟩], [], [], 1, false, false, false, false, false,
          false, false⟩ : Crm) =
        (Except.ok (),
         (⟨[⟨0, patchProps (mkContactProps a1) (mkContactProps a2)⟩], [], [], 1,
           false, false, false, false, false, false, false⟩ : Crm)) := by
      simp [updateContactProps, mtry, hpatch]
    have hup2c : upsertP3 a2
        (⟨[⟨0, mkContactProps a1⟩], [], [], 1, false, false, false, false, false,
          false, false⟩ : Crm) =
        (Except.ok ⟨0, false⟩,
         (⟨[⟨0, patchProps (mkContactProps a1) (mkContactProps a2)⟩], [], [], 1,
           false, false, false, false, false, false, false⟩ : Crm)) := by
      simp [upsertP3, M_bind_eq, hfind1, hupdate, M_pure_eq]
    refine ⟨?_, ?_, ?_, ?_⟩
    · simp [runTwice, M_bind_eq, hup1, hup2, M_pure_eq]
    · simp [runTwice, M_bind_eq, hup1, hup2, M_pure_eq]
    · simp [runTwice, M_bind_eq, hup1c, hup2c, M_pure_eq]
    · simp [runTwice, M_bind_eq, hup1c, hup2c, M_pure_eq]
  · intro ph b1 b2 hph h1e h2e h1p h2p
    have htp := truthy_some hph
    have hotp := oTruthy_some hph
    have hf0 : findContactIdByEmail b1.email crm0 = (Except.ok none, crm0) := by
      rw [h1e]
      simp [findContactIdByEmail, truthy, M_pure_eq]
    have hphone : (mkContactProps b1).phone = some ph := by
      simp [mkContactProps, h1p, hotp]
    have hsrch1 : searchContactP3 (some ph) none crm0 = (Except.ok none, crm0) := by
      simp [searchContactP3, mtry, hsSearchPhoneOrEmail, crm0]
    have hcreateB : hsCreateContact (mkContactProps b1) crm0 =
        (Except.ok 0,
         (⟨[⟨0, mkContactProps b1⟩], [], [], 1, false, false, false, false, false,
           false, false⟩ : Crm)) := by
      simp [hsCreateContact, crm0]
    have hup1 : upsertP3 b1 crm0 =
        (Except.ok ⟨0, true⟩,
         (⟨[⟨0, mkContactProps b1⟩], [], [], 1, false, false, false, false, false,
           false, false⟩ : Crm)) := by
      simp [upsertP3, M_bind_eq, hf0, h1p, htp, hsrch1, hcreateB, M_pure_eq]
    have hfb2 : findContactIdByEmail b2.email
        (⟨[⟨0, mkContactProps b1⟩], [], [], 1, false, false, false, false, false,
          false, false⟩ : Crm) =
        (Except.ok none,
         (⟨[⟨0, mkContactProps b1⟩], [], [], 1, false, false, false, false, false,
           false, false⟩ : Crm)) := by
      rw [h2e]
      simp [findContactIdByEmail, truthy, M_pure_eq]
    have hsrch2 : searchContactP3 (some ph) none
        (⟨[⟨0, mkContactProps b1⟩], [], [], 1, false, false, false, false, false,
          false, false⟩ : Crm) =
        (Except.ok (some ⟨0, mkContactProps b1⟩),
         (⟨[⟨0, mkContactProps b1⟩], [], [], 1, false, false, false, false, false,
           false, false⟩ : Crm)) := by
      simp [searchContactP3, mtry, hsSearchPhoneOrEmail, List.find?, htp, hphone]
    have hpatchB : hsPatchContact 0 (mkContactProps b2)
        (⟨[⟨0, mkContactProps b1⟩], [], [], 1, false, false, false, false, false,
          false, false⟩ : Crm) =
        (Except.ok (),
         (⟨[⟨0, patchProps (mkContactProps b1) (mkContactProps b2)⟩], [], [], 1,
           false, false, false, false, false, false, false⟩ : Crm)) := by
      simp [hsPatchContact]
    have hupdateB : updateContactProps 0 (mkContactProps b2)
        (⟨[⟨0, mkContactProps b1⟩], [], [], 1, false, false, false, false, false,
          false, false⟩ : Crm) =
        (Except.ok (),
         (⟨[⟨0, patchProps (mkContactProps b1) (mkContactProps b2)⟩], [], [], 1,
           false, false, false, false, false, false, false⟩ : Crm)) := by
      simp [updateContactProps, mtry, hpatchB]
    have hup2 : upsertP3 b2
        (⟨[⟨0, mkContactProps b1⟩], [], [], 1, false, false, false, false, false,
          false, false⟩ : Crm) =
        (Except.ok ⟨0, false⟩,
         (⟨[⟨0, patchProps (mkContactProps b1) (mkContactProps b2)⟩], [], [], 1,
           false, false, false, false, false, false, false⟩ : Crm)) := by
      simp [upsertP3, M_bind_eq, hfb2, h2p, htp, hsrch2, hupdateB, M_pure_eq]
    constructor
    · simp [runTwice, M_bind_eq, hup1, hup2, M_pure_eq]
    · simp [runTwice, M_bind_eq, hup1, hup2, M_pure_eq]

/-- Claim C5, counterexample: `upsertContact` of `part_001` never looks up
by phone — two phone-only calls with the same phone create two contacts,
contradicting the claimed email-preferred-else-phone unique-key lookup. -/
theorem C5_counterexample :
    (runTwice upsertP1 c5args c5args).1 = Except.ok (⟨0, true⟩, ⟨1, true⟩) ∧
    (runTwice upsertP1 c5args c5args).2.contacts.length = 2 := by
  refine ⟨by decide, by decide⟩

/-- Claim C5, witness: the amended statement at two concrete same-email
calls with differing names. -/
theorem C5_witness :
    (runTwice upsertP1 c5w1 c5w2).1 = Except.ok (⟨0, true⟩, ⟨0, false⟩) ∧
    (runTwice upsertP1 c5w1 c5w2).2.contacts.length = 1 ∧
    (runTwice upsertP3 c5w1 c5w2).1 = Except.ok (⟨0, true⟩, ⟨0, false⟩) ∧
    (runTwice upsertP3 c5w1 c5w2).2.contacts.length = 1 :=
  C5_amended.1 "a@b.com" c5w1 c5w2 (by decide) rfl rfl

theorem assocNote_mtry (nid cid : Nat) (s1 : Crm) :
    ∃ s2, mtry (hsAssocNoteContact nid cid) (fun _ => pure ()) s1 = (Except.ok (), s2) ∧
      s2.notes.length = s1.notes.length ∧
      s2.contacts = s1.contacts ∧
      s2.failPatchContact = s1.failPatchContact ∧
      s2.nextId = s1.nextId := by
  cases hf : s1.failAssocNote with
  | true =>
    exact ⟨s1, by simp [mtry, hsAssocNoteContact, hf, M_pure_eq], rfl, rfl, rfl, rfl⟩
  | false =>
    refine ⟨{ s1 with notes := (s1.notes.map
        (fun n => if n.id == nid then { n with assocContact := some cid } else n)) },
      ?_, ?_, rfl, rfl, rfl⟩
    · simp [mtry, hsAssocNoteContact, hf]
    · simp

/-- Claim C6: `createNote` of `part_001` creates the note unconditionally
and best-effort associates it; whenever note creation succeeds — whatever
the association outcome — it returns the new valid note id, and the note
stays created.  (The cited `part_002` variant does not catch the
association call and violates the claim — see the counterexample — so this
amended statement is about `part_001`.) -/
theorem C6_amended :
    ∀ (s : Crm) (a : ToolArgs), s.failCreateNote = false →
      (createNoteP1 a s).1 = Except.ok s.nextId ∧
      (createNoteP1 a s).2.notes.length = s.notes.length + 1 := by
  intro s a h
  have h1 : hsCreateNote (a.note.getD "") s =
      (Except.ok s.nextId,
       { s with notes := s.notes ++ [⟨s.nextId, a.note.getD "", none⟩], nextId := s.nextId + 1 }) := by
    simp [hsCreateNote, h]
  cases ha : a.contact_id with
  | none =>
    constructor
    · simp [createNoteP1, M_bind_eq, h1, ha, M_pure_eq]
    · simp [createNoteP1, M_bind_eq, h1, ha, M_pure_eq]
  | some cid =>
    obtain ⟨s2, h2, hlen, _, _, _⟩ := assocNote_mtry s.nextId cid
      ({ s with notes := s.notes ++ [⟨s.nextId, a.note.getD "", none⟩], nextId := s.nextId + 1 })
    constructor
    · simp [createNoteP1, M_bind_eq, h1, ha, h2, M_pure_eq]
    · simp [createNoteP1, M_bind_eq, h1, ha, h2, M_pure_eq, hlen]

/-- Claim C6, counterexample: `createNote` of `part_002` does not catch the
association call — with a failing association it raises instead of
returning the note id, although the note was created. -/
theorem C6_counterexample :
    (createNoteP2 c6args c6crm).1 = Except.error "assoc note failed" ∧
    (createNoteP2 c6args c6crm).2.notes.length = 1 := by
  refine ⟨by decide, by decide⟩

/-- Claim C6, witness: the amended statement at a concrete call whose
association fails. -/
theorem C6_witness :
    (createNoteP1 c6args c6crm).1 = Except.ok 0 ∧
    (createNoteP1 c6args c6crm).2.notes.length = 1 :=
  C6_amended c6crm c6args rfl

/-- Claim C1: the enrichment webhook handler of `part_000` always responds
HTTP 200, and when the skip path is not taken an uncaught failure of the
enrichment path yields the minimal valid response — empty variables, empty
instructions — still with status 200.  (The `index.js` tool routes cited
by the claim return a 500 for CRM failures — see the counterexample — so
the never-4xx/5xx part is amended to the enrichment handler.) -/
theorem C1_amended :
    ∀ (m : LeadStore) (leadId number : Option String)
      (enrich : Except String OverrideResp),
      (handlerP0 m leadId number enrich).1 = 200 ∧
      (skipCond m leadId number = false → ∀ e, enrich = Except.error e →
        (handlerP0 m leadId number enrich).2 = emptyOverrideResp) := by
  intro m leadId number enrich
  constructor
  · unfold handlerP0
    cases hsk : skipCond m leadId number with
    | true => simp
    | false =>
      cases enrich with
      | ok o => simp
      | error e => simp
  · intro hsk e he
    subst he
    simp [handlerP0, hsk]

/-- Claim C1, counterexample: the `index.js` route
`/tools/create_or_update_contact` answers HTTP 500, not 200, when the CRM
contact creation fails — a business-logic (CRM) failure surfaced as a
5xx. -/
theorem C1_counterexample :
    (toolCreateOrUpdateContact c1body c1crm).1 = Except.ok ⟨500, false, none⟩ ∧
    (500 : Nat) ≠ 200 := by
  refine ⟨by decide, by decide⟩

/-- Claim C1, witness: the amended statement at a failing enrichment. -/
theorem C1_witness :
    (handlerP0 [] none none (Except.error "CRM down")).1 = 200 ∧
    (handlerP0 [] none none (Except.error "CRM down")).2 = emptyOverrideResp :=
  ⟨(C1_amended [] none none (Except.error "CRM down")).1,
   (C1_amended [] none none (Except.error "CRM down")).2 (by decide) "CRM down" rfl⟩

/-- Claim C7: `hsSearchContactsByPhone` of `server.js` returns an empty
list without attempting any network call whenever the phone normalizes to
the empty string (in particular for the empty input and for any input with
neither digits nor plus signs), and on transport failure of every attempt
it returns an empty list, never propagating the error.  (The claim wording
"any non-numeric string" is amended: an input made only of `'+'` signs is
non-numeric yet normalizes to a non-empty string, so a network search is
attempted for it — see the counterexample.) -/
theorem C7_amended :
    ∀ (env : SearchEnv) (phone : String),
      (normalizePhone phone = "" → hsSearchContactsByPhoneSrv env phone = ([], 0)) ∧
      (∀ es er, env.sdkResult = Except.error es → env.restResult = Except.error er →
        (hsSearchContactsByPhoneSrv env phone).1 = []) := by
  intro env phone
  constructor
  · intro hq
    simp [hsSearchContactsByPhoneSrv, hq]
  · intro es er hs hr
    unfold hsSearchContactsByPhoneSrv
    cases hc : (normalizePhone phone == "" || !env.hasToken) with
    | true => simp [hc]
    | false =>
      cases ha : env.sdkAvailable with
      | true => simp [hc, ha, hs, hr]
      | false => simp [hc, ha, hr]

/-- Claim C7, counterexample: the input `"+"` contains no digit, yet the
search attempts a network call for it (one attempt counted) instead of the
claimed zero. -/
theorem C7_counterexample :
    (hsSearchContactsByPhoneSrv c7env "+").2 = 1 ∧
    "+".toList.all (fun c => !c.isDigit) = true ∧
    (1 : Nat) ≠ 0 := by
  refine ⟨by decide, by decide, by decide⟩

/-- Claim C7, witness: the amended statement at a digit-free input and at a
failing transport. -/
theorem C7_witness :
    hsSearchContactsByPhoneSrv c7env "abc" = ([], 0) ∧
    (hsSearchContactsByPhoneSrv c7env "+15551234567").1 = [] :=
  ⟨(C7_amended c7env "abc").1 (by decide),
   (C7_amended c7env "+15551234567").2 "down" "down" rfl rfl⟩

theorem find_map_set {k : String} {v : LeadEntry} :
    ∀ m : LeadStore, m.any (fun q => q.1 == k) = true →
      (m.map (fun q => if q.1 == k then (k, v) else q)).find? (fun q => q.1 == k) =
        some (k, v) := by
  intro m
  induction m with
  | nil => intro h; simp at h
  | cons a t ih =>
    intro h
    cases hk : a.1 == k with
    | true =>
      have hfa : (if a.1 == k then (k, v) else a) = (k, v) := by simp [hk]
      rw [List.map_cons, hfa, List.find?_cons_of_pos]
      simp
    | false =>
      have ht : t.any (fun q => q.1 == k) = true := by
        simpa [List.any_cons, hk] using h
      have hfa : (if a.1 == k then (k, v) else a) = a := by simp [hk]
      rw [List.map_cons, hfa, List.find?_cons_of_neg]
      · exact ih ht
      · simp [hk]

theorem find_append_single {k : String} {v : LeadEntry} :
    ∀ m : LeadStore, m.any (fun q => q.1 == k) = false →
      (m ++ [(k, v)]).find? (fun q => q.1 == k) = some (k, v) := by
  intro m
  induction m with
  | nil =>
    intro h
    rw [List.nil_append, List.find?_cons_of_pos]
    simp
  | cons a t ih =>
    intro h
    rw [List.any_cons, Bool.or_eq_false_iff] at h
    obtain ⟨ha, ht⟩ := h
    rw [List.cons_append, List.find?_cons_of_neg]
    · exact ih ht
    · simp [ha]

theorem lookup_storeSet (m : LeadStore) (k : String) (v : LeadEntry) :
    lookupLead (storeSet m k v) k = some v := by
  unfold storeSet lookupLead
  cases h : m.any (fun q => q.1 == k) with
  | true =>
    rw [if_pos rfl, find_map_set m h]
    rfl
  | false =>
    rw [if_neg (by simp), find_append_single m h]
    rfl

/-- Claim C8: the `/lead-status` store update always overwrites the status,
while `verifiedBy` is updated (from the number, falling back to the
previous value) only when the new status is `owner_verified` and is
retained unchanged otherwise; in particular setting `owner_verified` with
`+15551234567` and then `callback_requested` leaves
`verifiedBy = +15551234567`. -/
theorem C8_setStatus :
    (∀ (m : LeadStore) (lid st : String) (n : Option String), lid ≠ "" → st ≠ "" →
      lookupLead (leadStatusRoute m (some lid) (some st) n).2 lid =
        some ⟨st, if st == "owner_verified" then jsOrOpt n (prevVerifiedBy m lid)
          else prevVerifiedBy m lid⟩) ∧
    lookupLead (leadStatusRoute
        (leadStatusRoute [] (some "lead1") (some "owner_verified")
          (some "+15551234567")).2
        (some "lead1") (some "callback_requested") none).2 "lead1" =
      some ⟨"callback_requested", some "+15551234567"⟩ := by
  constructor
  · intro m lid st n hl hs
    simp [leadStatusRoute, truthy_some hl, truthy_some hs, lookup_storeSet]
  · decide

/-- Claim C8, witness: the general part of the statement at a fresh store
and a non-verified status. -/
theorem C8_witness :
    lookupLead (leadStatusRoute [] (some "leadA") (some "callback_requested")
      none).2 "leadA" = some ⟨"callback_requested", none⟩ := by
  have h := C8_setStatus.1 [] "leadA" "callback_requested" none (by decide) (by decide)
  simpa [prevVerifiedBy, lookupLead, jsOrOpt, truthy] using h

/-- Claim C9: the Override Synthesizer generates an opening-line
instruction only when the resolved property address or the summary is
non-empty — when both resolved variables are empty, `instructions_append`
is left empty, both in the `server.js` and in the `part_004` builder.  In
the `part_003` assistant-request route the returned `last_summary` is never
empty (it starts from a non-empty default), so the both-empty case cannot
arise for its always-sent `firstMessage`. -/
theorem C9_openingLine :
    (∀ (p : Payload) (cs : List ContactRec) (dA dB : List CtxDeal),
      getVar (buildOverrideSrv p cs dA dB) "property_address" = "" →
      getVar (buildOverrideSrv p cs dA dB) "last_summary" = "" →
      (buildOverrideSrv p cs dA dB).instructions_append = "" ∧
      (buildOverrideP4 p cs dA dB).instructions_append = "") ∧
    (∀ (fmt : String → String) (tok : Bool) (num ms vs : Option String)
      (c : Option ContactRec) (ds : List CtxDeal),
      (assistantRequestP3 fmt tok num ms vs c ds).last_summary ≠ "") := by
  constructor
  · intro p cs dA dB h1 h2
    have hv1 : (resolveVars p cs dA dB).property_address = "" := by
      simpa [getVar, buildOverrideSrv, List.find?] using h1
    have hv2 : (resolveVars p cs dA dB).last_summary = "" := by
      simpa [getVar, buildOverrideSrv, List.find?] using h2
    constructor
    · simp [buildOverrideSrv, hv1, hv2]
    · simp [buildOverrideP4, hv1, hv2]
  · intro fmt tok num ms vs c ds
    simp only [assistantRequestP3]
    cases hc : (tok && truthy num) with
    | false => simp [hc]
    | true =>
      cases hb : buildLastSummaryP3 fmt c
          (match c with
           | some _ => ds
           | none => []) with
      | none =>
        simp [hc, hb]
        decide
      | some b =>
        cases hbe : b == "" with
        | true =>
          have hbemp : b = "" := eq_of_beq hbe
          simp [hc, hb, hbemp]
          decide
        | false =>
          simp only [hc, hb, bne, hbe, Bool.not_false, if_true]
          exact fun hcontra => by rw [hcontra] at hbe; simp at hbe

/-- Claim C9, witness: on an empty payload with no CRM matches, both
builders leave the instruction empty. -/
theorem C9_witness :
    (buildOverrideSrv noPayload [] [] []).instructions_append = "" ∧
    (buildOverrideP4 noPayload [] [] []).instructions_append = "" :=
  C9_openingLine.1 noPayload [] [] [] (by decide) (by decide)

theorem find_patchList (cid : Nat) (pr : ContactProps) :
    ∀ l : List ContactRec,
      (l.map (fun c => if c.id == cid then
          (⟨c.id, patchProps c.props pr⟩ : ContactRec) else c)).find?
        (fun c => c.id == cid) =
      (l.find? (fun c => c.id == cid)).map
        (fun c => (⟨c.id, patchProps c.props pr⟩ : ContactRec)) := by
  intro l
  induction l with
  | nil => rfl
  | cons c t ih =>
    cases h : c.id == cid with
    | true =>
      have hfc : (if c.id == cid then
          (⟨c.id, patchProps c.props pr⟩ : ContactRec) else c) =
          (⟨c.id, patchProps c.props pr⟩ : ContactRec) := by
        simp [h]
      rw [List.map_cons, hfc, List.find?_cons_of_pos, List.find?_cons_of_pos]
      · rfl
      · exact h
      · simpa using h
    | false =>
      have hfc : (if c.id == cid then
          (⟨c.id, patchProps c.props pr⟩ : ContactRec) else c) = c := by
        simp [h]
      rw [List.map_cons, hfc, List.find?_cons_of_neg, List.find?_cons_of_neg]
      · exact ih
      · simp [h]
      · simp [h]

/-- Claim C10: in the memory variant of `createNote` (`part_003`), whenever
a contact id is supplied, the note body is given, creation and patching do
not hit transport failures, the contact exists and the compacted (trimmed)
first line of the note is non-empty, the operation returns the note id and
additionally patches the stored `last_summary` of the contact to that compacted line,
whose length never exceeds 240 characters.  (The claim wording "the first line"
is amended to "the trimmed first line": the code trims before storing and
truncates the trimmed line — see the counterexample.) -/
theorem C10_amended :
    ∀ (s : Crm) (a : ToolArgs) (cid : Nat) (t : String),
      a.contact_id = some cid → a.note = some t →
      s.failCreateNote = false → s.failPatchContact = false →
      s.contacts.any (fun c => c.id == cid) = true →
      compactOf t ≠ [] →
      (createNoteP3 a s).1 = Except.ok s.nextId ∧
      contactSummary (createNoteP3 a s).2 cid =
        some (some (List.asString (compactOf t))) ∧
      (compactOf t).length ≤ 240 := by
  intro s a cid t hcid hnote hfc hfp hany hne
  have h1 : hsCreateNote (a.note.getD "") s =
      (Except.ok s.nextId,
       { s with notes := s.notes ++ [⟨s.nextId, a.note.getD "", none⟩], nextId := s.nextId + 1 }) := by
    simp [hsCreateNote, hfc]
  obtain ⟨s2, h2, hlen2, hcts2, hfp2, hnid2⟩ := assocNote_mtry s.nextId cid
    ({ s with notes := s.notes ++ [⟨s.nextId, a.note.getD "", none⟩], nextId := s.nextId + 1 })
  have hcts2s : s2.contacts = s.contacts := hcts2
  have hfp2s : s2.failPatchContact = false := by
    rw [hfp2]
    exact hfp
  have hcompact : compactOf (a.note.getD "") = compactOf t := by simp [hnote]
  have hie : (compactOf t).isEmpty = false := by
    cases hcp : compactOf t with
    | nil => exact absurd hcp hne
    | cons x xs => rfl
  have hany2 : s2.contacts.any (fun c => c.id == cid) = true := by
    rw [hcts2s]
    exact hany
  have hpatch : hsPatchContact cid
      ({ emptyProps with last_summary := some (List.asString (compactOf t)) }) s2 =
      (Except.ok (),
       { s2 with contacts := (s2.contacts.map (fun c => if c.id == cid then
          ⟨c.id, patchProps c.props
            ({ emptyProps with last_summary := some (List.asString (compactOf t)) })⟩
          else c)) }) := by
    simp [hsPatchContact, hfp2s, hany2]
  have hupd : updateContactProps cid
      ({ emptyProps with last_summary := some (List.asString (compactOf t)) }) s2 =
      (Except.ok (),
       { s2 with contacts := (s2.contacts.map (fun c => if c.id == cid then
          ⟨c.id, patchProps c.props
            ({ emptyProps with last_summary := some (List.asString (compactOf t)) })⟩
          else c)) }) := by
    simp [updateContactProps, mtry, hpatch]
  have hrun : createNoteP3 a s =
      (Except.ok s.nextId,
       { s2 with contacts := (s2.contacts.map (fun c => if c.id == cid then
          ⟨c.id, patchProps c.props
            ({ emptyProps with last_summary := some (List.asString (compactOf t)) })⟩
          else c)) }) := by
    simp [createNoteP3, M_bind_eq, h1, hcid, h2, hcompact, hie, hupd, M_pure_eq]
  refine ⟨by simp [hrun], ?_, ?_⟩
  · rw [hrun]
    simp only [contactSummary]
    rw [hcts2s, find_patchList cid
      ({ emptyProps with last_summary := some (List.asString (compactOf t)) }) s.contacts]
    cases hfind : s.contacts.find? (fun c => c.id == cid) with
    | none =>
      rw [List.find?_eq_none] at hfind
      rw [List.any_eq_true] at hany
      obtain ⟨x, hx, hpx⟩ := hany
      exact absurd hpx (hfind x hx)
    | some c0 => simp [patchProps, ov]
  · simp only [compactOf]
    split
    · rename_i hgt
      rw [List.length_append, List.length_take]
      have hm : min 237 (trimL (firstLineL t.toList)).length = 237 :=
        Nat.min_eq_left (by omega)
      rw [hm]
      decide
    · rename_i hle
      omega

/-- Claim C10, counterexample: for the note `" hi"` the first line is
`" hi"`, yet the stored `last_summary` is the trimmed `"hi"` — the code
does not store the first line itself. -/
theorem C10_counterexample :
    contactSummary (createNoteP3 c10args c10crm).2 0 = some (some "hi") ∧
    firstLineL " hi".toList = [' ', 'h', 'i'] ∧
    ("hi" : String) ≠ " hi" := by
  refine ⟨by decide, by decide, by decide⟩

/-- Claim C10, witness: the amended statement at a one-line note on an
existing contact. -/
theorem C10_witness :
    (createNoteP3 c10argsW c10crm).1 = Except.ok 1 ∧
    contactSummary (createNoteP3 c10argsW c10crm).2 0 =
      some (some (List.asString (compactOf "hello"))) ∧
    (compactOf "hello").length ≤ 240 :=
  C10_amended c10crm c10argsW 0 "hello" rfl rfl rfl rfl (by decide) (by decide)

end VH
